import Mathlib

/-!
Verification development for a personal portfolio web application.

The application consists of an identity gate (single allow-listed admin
email), a client-side image ingestion pipeline (decode, proportional
downscale, re-encode), and thin CRUD access to a hosted document store
(projects, messages, one profile-settings document).

The definitions below are shallow embeddings of the application's functions.
Two variants of the image/profile code exist in the sources: the one in
`src/src/App.tsx` (namespace `AppVariant`) and the one in
`src/src/pages/AdminDashboardPage.tsx` (namespace `AdminVariant`).
Machine-level details that are irrelevant to the verified properties
(pixel contents, base64 encoding of the canvas) are abstracted: the encoded
output is modelled by its dimensions, its quality factor and a flag
recording whether the bitmap was actually drawn onto the canvas before
encoding.  Numeric dimension arithmetic is modelled over `ℚ`.
-/

/-! ## JavaScript string primitives -/

/-- The ECMAScript whitespace class used by `\s`, `\S` and `String.prototype.trim`:
WhiteSpace and LineTerminator code points. -/
def jsIsWhitespace (c : Char) : Bool :=
  c.val = 9 || c.val = 10 || c.val = 11 || c.val = 12 || c.val = 13 || c.val = 32 ||
  c.val = 160 || c.val = 0x1680 || (0x2000 ≤ c.val && c.val ≤ 0x200a) ||
  c.val = 0x2028 || c.val = 0x2029 || c.val = 0x202f || c.val = 0x205f ||
  c.val = 0x3000 || c.val = 0xfeff

/-- `String.prototype.trim` on the character list: strip leading and trailing
JS whitespace. -/
def jsTrimList (l : List Char) : List Char :=
  ((l.dropWhile jsIsWhitespace).reverse.dropWhile jsIsWhitespace).reverse

/-- `String.prototype.trim`. -/
def jsTrim (s : String) : String := ⟨jsTrimList s.data⟩

/-! The contact form validates the email field with `/\S+@\S+\.\S+/.test(email)`.
The matcher below decides, with explicit backtracking, whether the unanchored
pattern `\S+@\S+\.\S+` matches somewhere in the string. -/

/-- Matches the trailing `\S+` of the pattern at the head of the list:
at least one non-whitespace character. -/
def matchFinalPart : List Char → Bool
  | [] => false
  | c :: _ => !(jsIsWhitespace c)

/-- Matches `\.\S+` at the head of the list. -/
def matchDotPart : List Char → Bool
  | '.' :: rest => matchFinalPart rest
  | _ => false

/-- Matches `\S+\.\S+` at the head of the list: after each consumed
non-whitespace character, either the dot part starts or the `\S+` span
continues (backtracking disjunction). -/
def matchDomainPart : List Char → Bool
  | [] => false
  | c :: rest => !(jsIsWhitespace c) && (matchDotPart rest || matchDomainPart rest)

/-- Matches `@\S+\.\S+` at the head of the list. -/
def matchAtPart : List Char → Bool
  | '@' :: rest => matchDomainPart rest
  | _ => false

/-- Matches `\S+@\S+\.\S+` at the head of the list. -/
def matchLocalPart : List Char → Bool
  | [] => false
  | c :: rest => !(jsIsWhitespace c) && (matchAtPart rest || matchLocalPart rest)

/-- Unanchored search: the JS regex `test` tries every start position. -/
def regexSearch : List Char → Bool
  | [] => false
  | c :: rest => matchLocalPart (c :: rest) || regexSearch rest

/-- `/\S+@\S+\.\S+/.test(s)` from `ContactPage.validate`. -/
def emailShapeTest (s : String) : Bool := regexSearch s.data

/-! ## Contact form (`src/src/pages/ContactPage.tsx`) -/

/-- The contact form's three fields. -/
structure ContactForm where
  name : String
  email : String
  message : String

/-- The `newErrors` record built by `ContactPage.validate`; a field is `some`
message exactly when the corresponding key is added to `newErrors`. -/
structure ContactErrors where
  nameError : Option String
  emailError : Option String
  messageError : Option String
deriving DecidableEq

/-- `ContactPage.validate`: name/message must be non-blank after trim, the
email must be non-blank after trim and pass the regex test (on the untrimmed
value, as in the source). -/
def validate (f : ContactForm) : ContactErrors where
  nameError := if jsTrim f.name = "" then some "Name is required" else none
  emailError :=
    if jsTrim f.email = "" then some "Email is required"
    else if !(emailShapeTest f.email) then some "Invalid email format"
    else none
  messageError := if jsTrim f.message = "" then some "Message is required" else none

/-- `Object.keys(newErrors).length === 0`: validation passes when no error
key was added. -/
def validatePasses (f : ContactForm) : Bool :=
  (validate f).nameError.isNone && (validate f).emailError.isNone &&
    (validate f).messageError.isNone

/-- A document of the `messages` collection (id and creation timestamp are
assigned by the store at write time). -/
structure MessageDoc where
  id : String
  name : String
  email : String
  message : String
  createdAt : Nat
deriving DecidableEq

/-- `ContactPage.handleSubmit`: if validation fails, return before any store
write; otherwise `addDoc` appends a new message document with the form fields
and a server-assigned id and timestamp. -/
def handleSubmit (f : ContactForm) (messages : List MessageDoc)
    (newId : String) (ts : Nat) : List MessageDoc :=
  if validatePasses f then messages ++ [⟨newId, f.name, f.email, f.message, ts⟩]
  else messages

/-! ## Project form tags (`handleSubmitProject`, both variants) -/

/-- `String.prototype.split(',')` on the character list: every occurrence of
the comma separates two pieces, so the result has one piece more than the
number of commas (the empty string splits to one empty piece). -/
def splitCommaList : List Char → List (List Char)
  | [] => [[]]
  | c :: rest =>
    if c = ',' then [] :: splitCommaList rest
    else
      match splitCommaList rest with
      | [] => [[c]]
      | t :: ts => (c :: t) :: ts

/-- `tags.split(',')`. -/
def jsSplitComma (s : String) : List String :=
  (splitCommaList s.data).map fun l => ⟨l⟩

/-- `projectForm.tags.split(',').map(t => t.trim()).filter(Boolean)`. -/
def processTags (tags : String) : List String :=
  ((jsSplitComma tags).map jsTrim).filter (fun t => t != "")

/-- A document of the `projects` collection. -/
structure ProjectDoc where
  id : String
  title : String
  description : String
  tags : List String
  imageUrl : String
  githubLink : String
  liveLink : String
  createdAt : Nat
deriving DecidableEq

/-- The admin project form state. -/
structure ProjectForm where
  title : String
  description : String
  tags : String
  githubLink : String
  liveLink : String

namespace AdminVariant

/-- `handleSubmitProject` in `AdminDashboardPage.tsx`: `addDoc` into the
`projects` collection with the split/trimmed/filtered tags, the prepared
base64 image and a server timestamp (no local guard on title/description;
those are `required` HTML inputs). -/
def handleSubmitProject (form : ProjectForm) (imageBase64 : String)
    (store : List ProjectDoc) (newId : String) (ts : Nat) : List ProjectDoc :=
  store ++ [⟨newId, form.title, form.description, processTags form.tags,
    imageBase64, form.githubLink, form.liveLink, ts⟩]

end AdminVariant

namespace AppVariant

/-- `handleSubmitProject` in the dashboard embedded in `App.tsx`: returns
early when title or description is falsy (empty), otherwise `addDoc` as in
the other variant. -/
def handleSubmitProject (form : ProjectForm) (imageBase64 : String)
    (store : List ProjectDoc) (newId : String) (ts : Nat) : List ProjectDoc :=
  if form.title = "" ∨ form.description = "" then store
  else store ++ [⟨newId, form.title, form.description, processTags form.tags,
    imageBase64, form.githubLink, form.liveLink, ts⟩]

end AppVariant

/-! ## Identity gate (`src/services/firebase.ts`, appended to the page sources) -/

/-- The authenticated account returned by the identity provider's popup;
`email` is nullable in the provider's user object. -/
structure AuthUser where
  email : Option String
deriving DecidableEq

/-- The errors the gate can report: a provider failure caught by the
`try/catch`, or the access-denied failure for a non-admin email. -/
inductive AuthFailure
  | providerFailure
  | accessDenied
deriving DecidableEq

/-- The auth session held by the external provider: `currentUser` is the
signed-in account, if any. -/
structure AuthState where
  currentUser : Option AuthUser
deriving DecidableEq

/-- The `{ user, error }` object `loginWithGoogle` resolves with. -/
structure LoginResult where
  user : Option AuthUser
  error : Option AuthFailure
deriving DecidableEq

/-- `loginWithGoogle`: on popup success the account is signed in; then if
`user.email !== ADMIN_EMAIL` the gate calls `signOut` and returns a null user
with an access-denied error, otherwise it returns the user with no error.
A popup failure is caught and returned as `{ user: null, error }`. -/
def loginWithGoogle (adminEmail : String) (popupResult : Except Unit AuthUser)
    (s : AuthState) : AuthState × LoginResult :=
  match popupResult with
  | .error _ => (s, ⟨none, some .providerFailure⟩)
  | .ok u =>
    if u.email ≠ some adminEmail then
      (⟨none⟩, ⟨none, some .accessDenied⟩)
    else
      (⟨some u⟩, ⟨some u, none⟩)

/-- `checkIsAdmin`: `if (!email) return false; return email === ADMIN_EMAIL`
(a null or empty email is falsy). -/
def checkIsAdmin (adminEmail : String) (email : Option String) : Bool :=
  match email with
  | none => false
  | some e => if e = "" then false else e == adminEmail

/-! ## Image ingestion pipeline (`resizeImageToBase64`, both variants) -/

/-- The decoded in-memory bitmap: only its dimensions matter to the resize
logic. -/
structure Bitmap where
  width : ℚ
  height : ℚ
deriving DecidableEq

/-- The outcome of reading the selected file and decoding it into an image:
the `FileReader` can error, the `Image` can fail to load (malformed or
undecodable data), or a bitmap is obtained. -/
inductive ImageFile
  | readFailure
  | decodeFailure
  | image (img : Bitmap)
deriving DecidableEq

/-- The pipeline's failure taxonomy: file-read error, decode error
(`img.onerror`), and missing 2D canvas context. -/
inductive PipelineFailure
  | readFailed
  | decodeFailed
  | surfaceUnavailable
deriving DecidableEq

/-- Whether the runtime can provide a 2D canvas context
(`canvas.getContext('2d')` non-null). -/
structure RuntimeEnv where
  canvasCtxAvailable : Bool
deriving DecidableEq

/-- The data-URL string produced by `canvas.toDataURL('image/jpeg', q)`,
modelled by the canvas dimensions, the quality factor, and whether
`drawImage` was actually executed before encoding (an undrawn canvas encodes
to a blank image). -/
structure EncodedImage where
  width : ℚ
  height : ℚ
  drawn : Bool
  quality : ℚ
deriving DecidableEq

namespace AppVariant

/-- Target-dimension computation of the `App.tsx` variant (single-axis):
`if (width > maxWidth) { height = height * maxWidth / width; width = maxWidth }`. -/
def computeTargetDims (w h maxWidth : ℚ) : ℚ × ℚ :=
  if w > maxWidth then (maxWidth, h * maxWidth / w) else (w, h)

/-- `resizeImageToBase64` in `App.tsx`: reader error and image error reject;
a missing 2D context rejects with the context failure before any drawing;
otherwise the bitmap is drawn and the canvas encoded at the given quality. -/
def resizeImageToBase64 (file : ImageFile) (maxWidth quality : ℚ)
    (env : RuntimeEnv) : Except PipelineFailure EncodedImage :=
  match file with
  | .readFailure => .error .readFailed
  | .decodeFailure => .error .decodeFailed
  | .image img =>
    let dims := computeTargetDims img.width img.height maxWidth
    if env.canvasCtxAvailable then
      .ok ⟨dims.1, dims.2, true, quality⟩
    else
      .error .surfaceUnavailable

end AppVariant

namespace AdminVariant

/-- Target-dimension computation of the `AdminDashboardPage.tsx` variant
(dual-axis): if either dimension exceeds its maximum, scale both by the
smaller of the two axis ratios. -/
def computeTargetDims (w h maxWidth maxHeight : ℚ) : ℚ × ℚ :=
  if w > maxWidth ∨ h > maxHeight then
    let scale := min (maxWidth / w) (maxHeight / h)
    (w * scale, h * scale)
  else (w, h)

/-- `resizeImageToBase64` in `AdminDashboardPage.tsx`: reader error and image
error reject, but the drawing step uses optional chaining
(`canvas.getContext('2d')?.drawImage(...)`), so a missing context skips the
draw and the promise still resolves with the encoding of the undrawn canvas
at the hard-coded quality 0.85. -/
def resizeImageToBase64 (file : ImageFile) (maxWidth maxHeight : ℚ)
    (env : RuntimeEnv) : Except PipelineFailure EncodedImage :=
  match file with
  | .readFailure => .error .readFailed
  | .decodeFailure => .error .decodeFailed
  | .image img =>
    let dims := computeTargetDims img.width img.height maxWidth maxHeight
    .ok ⟨dims.1, dims.2, env.canvasCtxAvailable, 0.85⟩

end AdminVariant

/-! ## Profile settings singleton (`settings/profile` document) -/

/-- A schema-less stored document: a partial map from field names to field
values (values are inline strings; the server timestamp is stored as its
token string). -/
def SettingsDoc := String → Option String

/-- The field map written by the `App.tsx` variant:
`{ profileImageBase64, updatedAt: serverTimestamp() }`. -/
def appProfileUpdate (img ts : String) : SettingsDoc := fun k =>
  if k = "profileImageBase64" then some img
  else if k = "updatedAt" then some ts
  else none

/-- The field map written by the `AdminDashboardPage.tsx` variant:
`{ imageUrl: profileImageBase64 }`. -/
def adminProfileUpdate (img : String) : SettingsDoc := fun k =>
  if k = "imageUrl" then some img else none

/-- `setDoc(ref, fields, { merge })` of the external store: with `merge` the
written fields override and all other fields of the existing document are
kept; without it the written fields replace the whole document. -/
def setDocFs (old upd : SettingsDoc) (merge : Bool) : SettingsDoc :=
  if merge then fun k => (upd k).orElse (fun _ => old k) else upd

namespace AppVariant

/-- `handleSaveProfileImage` in `App.tsx`: no write when the prepared image
string is falsy (empty); otherwise
`setDoc(doc(db,'settings','profile'), { profileImageBase64, updatedAt }, { merge: true })`. -/
def handleSaveProfileImage (old : SettingsDoc) (img ts : String) : SettingsDoc :=
  if img = "" then old else setDocFs old (appProfileUpdate img ts) true

end AppVariant

namespace AdminVariant

/-- `handleSaveProfileImage` in `AdminDashboardPage.tsx`: no write when the
prepared image string is falsy; otherwise
`setDoc(doc(db,'settings','profile'), { imageUrl })` with no merge option. -/
def handleSaveProfileImage (old : SettingsDoc) (img : String) : SettingsDoc :=
  if img = "" then old else setDocFs old (adminProfileUpdate img) false

end AdminVariant

/-! ## Ordered collection queries -/

/-- A document of one of the two listed collections, reduced to what the
ordered query contract concerns: its id, its server-assigned creation
timestamp, and the remaining payload fields. -/
structure StoredDoc where
  id : String
  createdAt : Nat
  payload : List (String × String)
deriving DecidableEq

/-- The direction argument of `orderBy`. -/
inductive SortDirection
  | asc
  | desc
deriving DecidableEq

/-- The query object built by the fetch functions: a collection name, the
single order-by field and a direction; no limit, no secondary key. -/
structure CollectionQuery where
  collectionName : String
  orderByField : String
  direction : SortDirection
deriving DecidableEq

/-- `query(collection(db, 'projects'), orderBy('createdAt', 'desc'))` as built
by `fetchProjects` in both dashboard variants and in `ProjectsPage`. -/
def projectsQuery : CollectionQuery := ⟨"projects", "createdAt", .desc⟩

/-- `query(collection(db, 'messages'), orderBy('createdAt', 'desc'))` as built
by `fetchMessages`. -/
def messagesQuery : CollectionQuery := ⟨"messages", "createdAt", .desc⟩

/-- Non-strict descending order on creation timestamps. -/
def laterFirst (a b : StoredDoc) : Prop := b.createdAt ≤ a.createdAt

instance : DecidableRel laterFirst := fun a b => Nat.decLe b.createdAt a.createdAt

instance : IsTotal StoredDoc laterFirst :=
  ⟨fun a b => Nat.le_total b.createdAt a.createdAt⟩

instance : IsTrans StoredDoc laterFirst :=
  ⟨fun _ _ _ hab hbc => Nat.le_trans hbc hab⟩

/-- Strict descending order on creation timestamps. -/
def strictlyLaterFirst (a b : StoredDoc) : Prop := b.createdAt < a.createdAt

instance : IsAntisymm StoredDoc strictlyLaterFirst :=
  ⟨fun _ _ h1 h2 => absurd h2 (Nat.lt_asymm h1)⟩

/-- `getDocs` on an ordered query.  The external document store guarantees
the returned snapshot is sorted on the order-by field in the requested
direction (spec section 6: the store supports ordered queries by a single
field); both queries in scope order by `createdAt`. -/
def getDocsOrdered (q : CollectionQuery) (docs : List StoredDoc) : List StoredDoc :=
  match q.direction with
  | .desc => List.insertionSort laterFirst docs
  | .asc => List.insertionSort (fun a b => a.createdAt ≤ b.createdAt) docs

/-- `fetchProjects`: run the descending `createdAt` query over the `projects`
collection. -/
def fetchProjects (projects : List StoredDoc) : List StoredDoc :=
  getDocsOrdered projectsQuery projects

/-- `fetchMessages`: run the descending `createdAt` query over the `messages`
collection. -/
def fetchMessages (messages : List StoredDoc) : List StoredDoc :=
  getDocsOrdered messagesQuery messages

/-! ## Local delete handlers (`AdminDashboardPage.tsx`) -/

/-- `handleDeleteProject`: after the store delete succeeds,
`setProjects(projects.filter(p => p.id !== id))`. -/
def handleDeleteProject (id : String) (projects : List ProjectDoc) : List ProjectDoc :=
  projects.filter (fun p => p.id != id)

/-- `handleDeleteMessage`: after the store delete succeeds,
`setMessages(messages.filter(m => m.id !== id))`. -/
def handleDeleteMessage (id : String) (messages : List MessageDoc) : List MessageDoc :=
  messages.filter (fun m => m.id != id)

/-- A concrete sample project document (used to instantiate theorems). -/
def sampleProjectX : ProjectDoc := ⟨"x", "t1", "d1", [], "", "", "", 1⟩

/-- A second concrete sample project document with a different id. -/
def sampleProjectY : ProjectDoc := ⟨"y", "t2", "d2", [], "", "", "", 2⟩

/-- A concrete sample message document. -/
def sampleMessage : MessageDoc := ⟨"m0", "n", "e@x.y", "msg", 0⟩

/-! ## Shared lemmas about the descending sort -/

lemma getDocsOrderedDesc_eq (q : CollectionQuery) (hq : q.direction = .desc)
    (docs : List StoredDoc) :
    getDocsOrdered q docs = List.insertionSort laterFirst docs := by
  unfold getDocsOrdered
  rw [hq]

lemma getDocsOrderedDesc_perm (q : CollectionQuery) (hq : q.direction = .desc)
    (docs : List StoredDoc) : (getDocsOrdered q docs).Perm docs := by
  rw [getDocsOrderedDesc_eq q hq]
  exact List.perm_insertionSort laterFirst docs

lemma getDocsOrderedDesc_pairwise (q : CollectionQuery) (hq : q.direction = .desc)
    (docs : List StoredDoc) (hnd : (docs.map StoredDoc.createdAt).Nodup) :
    (getDocsOrdered q docs).Pairwise strictlyLaterFirst := by
  have hsorted : (getDocsOrdered q docs).Pairwise laterFirst := by
    rw [getDocsOrderedDesc_eq q hq]
    exact List.sorted_insertionSort laterFirst docs
  have hndSorted : ((getDocsOrdered q docs).map StoredDoc.createdAt).Nodup :=
    (((getDocsOrderedDesc_perm q hq docs).map StoredDoc.createdAt).nodup_iff).mpr hnd
  have hne : (getDocsOrdered q docs).Pairwise
      (fun a b => a.createdAt ≠ b.createdAt) := List.pairwise_map.mp hndSorted
  exact (hsorted.and hne).imp
    (fun h => Nat.lt_of_le_of_ne h.1 (fun hc => h.2 hc.symm))

lemma getDocsOrderedDesc_insensitive (q : CollectionQuery) (hq : q.direction = .desc)
    (docs docs2 : List StoredDoc) (hnd : (docs.map StoredDoc.createdAt).Nodup)
    (hperm : docs.Perm docs2) : getDocsOrdered q docs = getDocsOrdered q docs2 := by
  have hnd2 : (docs2.map StoredDoc.createdAt).Nodup :=
    ((hperm.map StoredDoc.createdAt).nodup_iff).mp hnd
  have hp : (getDocsOrdered q docs).Perm (getDocsOrdered q docs2) :=
    ((getDocsOrderedDesc_perm q hq docs).trans hperm).trans
      (getDocsOrderedDesc_perm q hq docs2).symm
  exact List.eq_of_perm_of_sorted hp
    (getDocsOrderedDesc_pairwise q hq docs hnd)
    (getDocsOrderedDesc_pairwise q hq docs2 hnd2)

/-! ## Claims -/

/-- C1: for every sign-in that succeeds at the identity provider, if the
authenticated account's email differs (case-sensitive, exact comparison) from
the statically configured admin email, the gate signs the account back out
(the session's `currentUser` becomes `none`) and returns an access-denied
failure with a null user; if the email equals the admin email, the gate
returns that user as an authorized identity with no error. -/
theorem claim_C1 (adminEmail : String) (u : AuthUser) (s : AuthState) :
    (u.email ≠ some adminEmail →
      loginWithGoogle adminEmail (.ok u) s =
        (⟨none⟩, ⟨none, some .accessDenied⟩)) ∧
    (u.email = some adminEmail →
      loginWithGoogle adminEmail (.ok u) s = (⟨some u⟩, ⟨some u, none⟩)) := by
  constructor
  · intro h
    simp [loginWithGoogle, h]
  · intro h
    simp [loginWithGoogle, h]

/-- Witness for C1 at concrete emails: a non-admin account is revoked and
denied, the admin account is returned with no error. -/
theorem claim_C1_witness :
    loginWithGoogle "admin@site.com" (.ok ⟨some "intruder@site.com"⟩) ⟨none⟩ =
      (⟨none⟩, ⟨none, some .accessDenied⟩) ∧
    loginWithGoogle "admin@site.com" (.ok ⟨some "admin@site.com"⟩) ⟨none⟩ =
      (⟨some ⟨some "admin@site.com"⟩⟩, ⟨some ⟨some "admin@site.com"⟩, none⟩) :=
  ⟨(claim_C1 "admin@site.com" ⟨some "intruder@site.com"⟩ ⟨none⟩).1 (by decide),
   (claim_C1 "admin@site.com" ⟨some "admin@site.com"⟩ ⟨none⟩).2 rfl⟩

/-- C2 counterexample: the `AdminDashboardPage.tsx` save of the profile
singleton uses `setDoc` without the merge option, so a pre-existing field
(`bio` here) of the singleton document is clobbered by the save instead of
being preserved. -/
theorem claim_C2_counterexample :
    AdminVariant.handleSaveProfileImage
      (fun k => if k = "bio" then some "hello" else
        if k = "imageUrl" then some "old-img" else none) "new-img" "bio" = none ∧
    (fun k => if k = "bio" then some "hello" else
        if k = "imageUrl" then some "old-img" else none) "bio" = some "hello" := by
  constructor
  · rfl
  · rfl

/-- C2 (amended): the `App.tsx` variant writes the image field and an
`updatedAt` timestamp with merge semantics, so every other field of the
existing singleton document is preserved unchanged; the
`AdminDashboardPage.tsx` variant writes the image field without merge,
replacing the whole document, so no other field of the existing document is
preserved (after a non-empty save, every field other than `imageUrl` reads
as absent). -/
theorem claim_C2 (old : SettingsDoc) (img ts k j : String)
    (hk1 : k ≠ "profileImageBase64") (hk2 : k ≠ "updatedAt")
    (hj : j ≠ "imageUrl") (himg : img ≠ "") :
    AppVariant.handleSaveProfileImage old img ts k = old k ∧
    AdminVariant.handleSaveProfileImage old img j = none := by
  constructor
  · by_cases h : img = ""
    · simp [AppVariant.handleSaveProfileImage, h]
    · simp [AppVariant.handleSaveProfileImage, h, setDocFs, appProfileUpdate,
        hk1, hk2, Option.orElse]
  · simp [AdminVariant.handleSaveProfileImage, himg, setDocFs, adminProfileUpdate, hj]

/-- Witness for C2 at a concrete document: the merge-variant save preserves
the unrelated `bio` field, the replace-variant save erases it. -/
theorem claim_C2_witness :
    AppVariant.handleSaveProfileImage
      (fun k => if k = "bio" then some "hello" else none) "new-img" "ts0" "bio" =
      (fun k => if k = "bio" then some "hello" else none) "bio" ∧
    AdminVariant.handleSaveProfileImage
      (fun k => if k = "bio" then some "hello" else none) "new-img" "bio" = none :=
  claim_C2 (fun k => if k = "bio" then some "hello" else none) "new-img" "ts0"
    "bio" "bio" (by decide) (by decide) (by decide) (by decide)

/-- C3 counterexample: in the `AdminDashboardPage.tsx` variant, with the 2D
canvas context unavailable, the pipeline does not reject: it resolves with an
output produced from an undrawn surface (`drawn = false`). -/
theorem claim_C3_counterexample :
    AdminVariant.resizeImageToBase64 (.image ⟨100, 100⟩) 400 400 ⟨false⟩ =
      .ok ⟨100, 100, false, 0.85⟩ := rfl

/-- C3 (amended): in the `App.tsx` variant, when the 2D canvas context is
unavailable the pipeline rejects every decodable file with the
surface-unavailable failure, and whenever it resolves, the output was
produced from a drawn surface; the `AdminDashboardPage.tsx` variant instead
still resolves when the context is unavailable, with an output produced from
an undrawn surface. -/
theorem claim_C3 (img : Bitmap) (maxWidth maxHeight quality : ℚ)
    (file : ImageFile) (env : RuntimeEnv) (e : EncodedImage)
    (happ : AppVariant.resizeImageToBase64 file maxWidth quality env = .ok e) :
    AppVariant.resizeImageToBase64 (.image img) maxWidth quality ⟨false⟩ =
      .error .surfaceUnavailable ∧
    e.drawn = true ∧
    AdminVariant.resizeImageToBase64 (.image img) maxWidth maxHeight ⟨false⟩ =
      .ok ⟨(AdminVariant.computeTargetDims img.width img.height maxWidth maxHeight).1,
        (AdminVariant.computeTargetDims img.width img.height maxWidth maxHeight).2,
        false, 0.85⟩ := by
  refine ⟨rfl, ?_, rfl⟩
  cases file with
  | readFailure => simp [AppVariant.resizeImageToBase64] at happ
  | decodeFailure => simp [AppVariant.resizeImageToBase64] at happ
  | image img2 =>
    by_cases hctx : env.canvasCtxAvailable
    · simp [AppVariant.resizeImageToBase64, hctx] at happ
      rw [← happ]
    · simp [AppVariant.resizeImageToBase64, hctx] at happ

/-- Witness for C3 at a concrete decodable bitmap and a concrete successful
run of the `App.tsx` pipeline. -/
theorem claim_C3_witness :
    AppVariant.resizeImageToBase64 (.image ⟨100, 100⟩) 400 0.8 ⟨false⟩ =
      .error .surfaceUnavailable ∧
    (⟨100, 100, true, 0.8⟩ : EncodedImage).drawn = true ∧
    AdminVariant.resizeImageToBase64 (.image ⟨100, 100⟩) 400 400 ⟨false⟩ =
      .ok ⟨(AdminVariant.computeTargetDims 100 100 400 400).1,
        (AdminVariant.computeTargetDims 100 100 400 400).2, false, 0.85⟩ :=
  claim_C3 ⟨100, 100⟩ 400 400 0.8 (.image ⟨100, 100⟩) ⟨true⟩
    ⟨100, 100, true, 0.8⟩ rfl

/-- C4 counterexample: the dual-axis variant, on a source whose width (800)
exceeds the maximum width (400) but whose height binds the scale, outputs a
width of 200, not the maximum width. -/
theorem claim_C4_counterexample :
    (AdminVariant.computeTargetDims 800 1600 400 400).1 = 200 ∧
    (AdminVariant.computeTargetDims 800 1600 400 400).1 ≠ 400 := by
  constructor
  · norm_num [AdminVariant.computeTargetDims, min_def]
  · norm_num [AdminVariant.computeTargetDims, min_def]

/-- C4 (amended): under the single-axis (`App.tsx`) variant, for every valid
image whose positive source width exceeds the positive maximum width, the
output width equals the maximum width and the height-to-width aspect is
preserved exactly; the dual-axis variant does not guarantee this when the
height constrains the scale more tightly. -/
theorem claim_C4 (w h maxWidth : ℚ) (hw : 0 < w) (hmax : 0 < maxWidth)
    (hgt : maxWidth < w) :
    (AppVariant.computeTargetDims w h maxWidth).1 = maxWidth ∧
    (AppVariant.computeTargetDims w h maxWidth).2 /
      (AppVariant.computeTargetDims w h maxWidth).1 = h / w := by
  have hw0 : w ≠ 0 := ne_of_gt hw
  have hm0 : maxWidth ≠ 0 := ne_of_gt hmax
  unfold AppVariant.computeTargetDims
  rw [if_pos hgt]
  refine ⟨rfl, ?_⟩
  field_simp
  ring

/-- Witness for C4: a 800x600 source with maximum width 400. -/
theorem claim_C4_witness :
    (AppVariant.computeTargetDims 800 600 400).1 = 400 ∧
    (AppVariant.computeTargetDims 800 600 400).2 /
      (AppVariant.computeTargetDims 800 600 400).1 = 600 / 800 :=
  claim_C4 800 600 400 (by norm_num) (by norm_num) (by norm_num)

/-- C5: under the single-axis variant a source width within the maximum, and
under the dual-axis variant both dimensions within their maxima, leave the
dimensions unchanged — no upscaling ever occurs. -/
theorem claim_C5 (w h maxWidth maxHeight : ℚ) :
    (w ≤ maxWidth → AppVariant.computeTargetDims w h maxWidth = (w, h)) ∧
    (w ≤ maxWidth → h ≤ maxHeight →
      AdminVariant.computeTargetDims w h maxWidth maxHeight = (w, h)) := by
  constructor
  · intro hw
    unfold AppVariant.computeTargetDims
    rw [if_neg (not_lt.mpr hw)]
  · intro hw hh
    unfold AdminVariant.computeTargetDims
    rw [if_neg]
    push_neg
    exact ⟨hw, hh⟩

/-- Witness for C5: a 300x200 source against a 400x400 bounding box is kept
unchanged by both variants. -/
theorem claim_C5_witness :
    AppVariant.computeTargetDims 300 200 400 = (300, 200) ∧
    AdminVariant.computeTargetDims 300 200 400 400 = (300, 200) :=
  ⟨(claim_C5 300 200 400 400).1 (by norm_num),
   (claim_C5 300 200 400 400).2 (by norm_num) (by norm_num)⟩

/-- C6: a malformed or undecodable input file makes both pipeline variants
reject at the decode step with the decode failure, producing no output. -/
theorem claim_C6 (maxWidth maxHeight quality : ℚ) (env : RuntimeEnv) :
    AppVariant.resizeImageToBase64 .decodeFailure maxWidth quality env =
      .error .decodeFailed ∧
    AdminVariant.resizeImageToBase64 .decodeFailure maxWidth maxHeight env =
      .error .decodeFailed :=
  ⟨rfl, rfl⟩

/-- C7: a contact-form submission whose email fails the basic shape test
(such as "not-an-email") fails validation locally and performs no store
write; the store write is reached only when validation of all fields
passes. -/
theorem claim_C7 (f : ContactForm) (messages : List MessageDoc)
    (newId : String) (ts : Nat) :
    (emailShapeTest f.email = false → handleSubmit f messages newId ts = messages) ∧
    (handleSubmit f messages newId ts ≠ messages → validatePasses f = true) ∧
    emailShapeTest "not-an-email" = false := by
  refine ⟨?_, ?_, by decide⟩
  · intro h
    have he : (validate f).emailError.isNone = false := by
      by_cases ht : jsTrim f.email = ""
      · simp [validate, ht]
      · simp [validate, ht, h]
    have hv : validatePasses f = false := by
      simp [validatePasses, he]
    simp [handleSubmit, hv]
  · intro hne
    by_cases hv : validatePasses f = true
    · exact hv
    · exact absurd (by simp [handleSubmit, hv]) hne

/-- Witness for C7: submitting with email "not-an-email" writes nothing. -/
theorem claim_C7_witness :
    handleSubmit ⟨"Jane", "not-an-email", "hello there"⟩ [] "m1" 5 = [] :=
  (claim_C7 ⟨"Jane", "not-an-email", "hello there"⟩ [] "m1" 5).1 (by decide)

/-- C8: a project submission stores as tags exactly the comma-separated
input split on commas with each piece trimmed and empty pieces discarded;
every stored tag is non-empty and is the trim of one of the split pieces,
and the input "React, Go" yields exactly ["React", "Go"]. -/
theorem claim_C8 (form : ProjectForm) (imageBase64 : String)
    (store : List ProjectDoc) (newId : String) (ts : Nat) (t : String) :
    AdminVariant.handleSubmitProject form imageBase64 store newId ts =
      store ++ [⟨newId, form.title, form.description, processTags form.tags,
        imageBase64, form.githubLink, form.liveLink, ts⟩] ∧
    (form.title ≠ "" → form.description ≠ "" →
      AppVariant.handleSubmitProject form imageBase64 store newId ts =
        store ++ [⟨newId, form.title, form.description, processTags form.tags,
          imageBase64, form.githubLink, form.liveLink, ts⟩]) ∧
    (t ∈ processTags form.tags →
      t ≠ "" ∧ ∃ piece ∈ jsSplitComma form.tags, t = jsTrim piece) ∧
    processTags "React, Go" = ["React", "Go"] := by
  refine ⟨rfl, ?_, ?_, by decide⟩
  · intro h1 h2
    simp [AppVariant.handleSubmitProject, h1, h2]
  · intro ht
    simp only [processTags, List.mem_filter, List.mem_map] at ht
    obtain ⟨⟨piece, hp, rfl⟩, hne⟩ := ht
    exact ⟨by simpa using hne, piece, hp, rfl⟩

/-- Witness for C8 at the concrete scenario of the spec: title "Demo",
tags "React, Go". -/
theorem claim_C8_witness :
    AdminVariant.handleSubmitProject ⟨"Demo", "A demo project", "React, Go", "", ""⟩
      "" [] "p1" 7 =
      [] ++ [⟨"p1", "Demo", "A demo project", processTags "React, Go", "", "", "", 7⟩] ∧
    processTags "React, Go" = ["React", "Go"] :=
  ⟨(claim_C8 ⟨"Demo", "A demo project", "React, Go", "", ""⟩ "" [] "p1" 7 "React").1,
   (claim_C8 ⟨"Demo", "A demo project", "React, Go", "", ""⟩ "" [] "p1" 7 "React").2.2.2⟩

/-- C9: fetching the projects or messages collection returns the documents
ordered strictly descending by creation timestamp whenever the creation
instants are distinct, as a permutation of the stored collection, and the
result is independent of the insertion order of the documents. -/
theorem claim_C9 (docs docs2 : List StoredDoc)
    (hnd : (docs.map StoredDoc.createdAt).Nodup) (hperm : docs.Perm docs2) :
    (fetchProjects docs).Perm docs ∧
    (fetchProjects docs).Pairwise strictlyLaterFirst ∧
    (fetchMessages docs).Pairwise strictlyLaterFirst ∧
    fetchProjects docs = fetchProjects docs2 ∧
    fetchMessages docs = fetchMessages docs2 :=
  ⟨getDocsOrderedDesc_perm projectsQuery rfl docs,
   getDocsOrderedDesc_pairwise projectsQuery rfl docs hnd,
   getDocsOrderedDesc_pairwise messagesQuery rfl docs hnd,
   getDocsOrderedDesc_insensitive projectsQuery rfl docs docs2 hnd hperm,
   getDocsOrderedDesc_insensitive messagesQuery rfl docs docs2 hnd hperm⟩

/-- Witness for C9: three documents with distinct creation instants, read in
two different insertion orders. -/
theorem claim_C9_witness :
    (fetchProjects [⟨"b", 2, []⟩, ⟨"a", 3, []⟩, ⟨"c", 1, []⟩]).Perm
      [⟨"b", 2, []⟩, ⟨"a", 3, []⟩, ⟨"c", 1, []⟩] ∧
    (fetchProjects [⟨"b", 2, []⟩, ⟨"a", 3, []⟩, ⟨"c", 1, []⟩]).Pairwise
      strictlyLaterFirst ∧
    (fetchMessages [⟨"b", 2, []⟩, ⟨"a", 3, []⟩, ⟨"c", 1, []⟩]).Pairwise
      strictlyLaterFirst ∧
    fetchProjects [⟨"b", 2, []⟩, ⟨"a", 3, []⟩, ⟨"c", 1, []⟩] =
      fetchProjects [⟨"c", 1, []⟩, ⟨"a", 3, []⟩, ⟨"b", 2, []⟩] ∧
    fetchMessages [⟨"b", 2, []⟩, ⟨"a", 3, []⟩, ⟨"c", 1, []⟩] =
      fetchMessages [⟨"c", 1, []⟩, ⟨"a", 3, []⟩, ⟨"b", 2, []⟩] :=
  claim_C9 [⟨"b", 2, []⟩, ⟨"a", 3, []⟩, ⟨"c", 1, []⟩]
    [⟨"c", 1, []⟩, ⟨"a", 3, []⟩, ⟨"b", 2, []⟩] (by decide) (by decide)

/-- C10: after a successful store delete by id, the local list equals the
previous list with exactly the entries carrying that id removed: the result
is a sublist of the previous list (so every other entry and the relative
order are unchanged), an entry is in the result exactly when it was present
and has a different id, and the multiplicity of every entry with a different
id is preserved; the same holds for messages. -/
theorem claim_C10 (id : String) (projects : List ProjectDoc)
    (messages : List MessageDoc) (p : ProjectDoc) (m : MessageDoc) :
    (handleDeleteProject id projects).Sublist projects ∧
    (p ∈ handleDeleteProject id projects ↔ p ∈ projects ∧ p.id ≠ id) ∧
    (p.id ≠ id → (handleDeleteProject id projects).count p = projects.count p) ∧
    (handleDeleteMessage id messages).Sublist messages ∧
    (m ∈ handleDeleteMessage id messages ↔ m ∈ messages ∧ m.id ≠ id) ∧
    (m.id ≠ id → (handleDeleteMessage id messages).count m = messages.count m) := by
  refine ⟨List.filter_sublist _, ?_, ?_, List.filter_sublist _, ?_, ?_⟩
  · simp [handleDeleteProject, List.mem_filter]
  · intro h
    exact List.count_filter (by simpa using h)
  · simp [handleDeleteMessage, List.mem_filter]
  · intro h
    exact List.count_filter (by simpa using h)

/-- Witness for C10: deleting id "x" from a two-element list keeps the
"y" entry (membership and multiplicity) and drops the "x" entry. -/
theorem claim_C10_witness :
    (handleDeleteProject "x" [sampleProjectX, sampleProjectY]).Sublist
      [sampleProjectX, sampleProjectY] ∧
    (sampleProjectY ∈ handleDeleteProject "x" [sampleProjectX, sampleProjectY] ↔
      sampleProjectY ∈ [sampleProjectX, sampleProjectY] ∧ sampleProjectY.id ≠ "x") ∧
    (handleDeleteProject "x" [sampleProjectX, sampleProjectY]).count sampleProjectY =
      [sampleProjectX, sampleProjectY].count sampleProjectY :=
  ⟨(claim_C10 "x" [sampleProjectX, sampleProjectY] [] sampleProjectY sampleMessage).1,
   (claim_C10 "x" [sampleProjectX, sampleProjectY] [] sampleProjectY sampleMessage).2.1,
   (claim_C10 "x" [sampleProjectX, sampleProjectY] [] sampleProjectY
      sampleMessage).2.2.1 (by decide)⟩
